import Mathlib

/-!
Verification development for the Heirlooms artifact-ingestion pipeline.

The definitions below are a shallow embedding of the TypeScript source:

* `src/app/api/ingest/route.ts` — the live ingestion route (`POST`,
  `structureArtifact`, `toSlug`, the progressive insert fallback);
* two older route variants kept in the repository (referred to here as
  `part_000` and `part_008`), which differ from the live route in their
  upload error handling, collection-reference resolution and response body.

External effects (Cloudinary uploads, the OpenAI call, Supabase reads and
writes, `Math.random()`) are modelled as explicit parameters of the pipeline
functions: each pipeline takes the outcome of every external call as input
and computes the exact control flow and data flow of the handler on those
outcomes.  JavaScript strings are modelled as Lean `String` (`.slice` by
code units becomes `List.take`/`List.drop` over `String.data`; all strings
involved in the proofs are ASCII).
-/

/-- JavaScript `x || d` for strings: the empty string is falsy. -/
def jsOr (s d : String) : String := if s = "" then d else s

/-- JavaScript truthiness of an optional string (`undefined` and `""` are falsy). -/
def jsTruthy (o : Option String) : Bool :=
  match o with
  | none => false
  | some t => t != ""

/-- JavaScript `String.prototype.trim`, modelled over the character list
(whitespace per `Char.isWhitespace`). -/
def jsTrim (s : String) : String :=
  String.mk (((s.data.dropWhile Char.isWhitespace).reverse.dropWhile Char.isWhitespace).reverse)

/-- JavaScript `String.prototype.toLowerCase`, modelled with `Char.toLower`
(ASCII case mapping; non-ASCII characters are unaffected, and every character
outside `a-z0-9` is replaced by a hyphen downstream either way). -/
def jsLower (s : String) : String := String.mk (s.data.map Char.toLower)

/-- Characters matched by the slug regex class `[a-z0-9]` (also the alphabet
of base-36 digits produced by `Number.prototype.toString(36)`). -/
def isLowerAlnum (c : Char) : Bool :=
  ('a' ≤ c && c ≤ 'z') || ('0' ≤ c && c ≤ '9')

/-- One step of `replace(/[^a-z0-9]+/g, "-")`: map each character kept by the
class to itself and every other character to a hyphen. -/
def hyphChar (c : Char) : Char := if isLowerAlnum c then c else '-'

/-- Collapse every run of consecutive hyphens to a single hyphen; composed with
`hyphChar` this is `replace(/[^a-z0-9]+/g, "-")` (each maximal run of
non-alphanumeric characters becomes one hyphen). -/
def collapseHyphens : List Char → List Char
  | [] => []
  | [c] => [c]
  | a :: b :: rest =>
    if a = '-' ∧ b = '-' then collapseHyphens (b :: rest)
    else a :: collapseHyphens (b :: rest)

/-- Remove a single leading hyphen: the `^-` alternative of
`replace(/(^-|-$)/g, "")`. -/
def dropLeadHyphen : List Char → List Char
  | [] => []
  | c :: t => if c = '-' then t else c :: t

/-- Remove a single trailing hyphen: the `-$` alternative of
`replace(/(^-|-$)/g, "")`. -/
def dropTrailHyphen (l : List Char) : List Char :=
  (dropLeadHyphen l.reverse).reverse

/-- The deterministic part of `toSlug`: lowercase, replace runs of
non-alphanumerics by single hyphens, trim one leading and one trailing hyphen,
then `.slice(0, 60)`. -/
def slugCore (s : String) : List Char :=
  List.take 60 (dropTrailHyphen (dropLeadHyphen (collapseHyphens ((jsLower s).data.map hyphChar))))

/-- The base-36 digit alphabet used by `Number.prototype.toString(36)`. -/
def digitChar36 (d : Nat) : Char :=
  if d < 10 then Char.ofNat (48 + d) else Char.ofNat (97 + (d - 10))

/-- Fractional base-36 digits of `num / 2^53`, emitted until the remainder is
zero (the expansion of a 53-bit dyadic terminates within 27 digits, so the
fuel of 54 is never exhausted). -/
def fracDigits36 : Nat → Nat → List Char
  | 0, _ => []
  | fuel + 1, num =>
    if num = 0 then []
    else digitChar36 (num * 36 / 2 ^ 53) :: fracDigits36 fuel (num * 36 % 2 ^ 53)

/-- `Math.random().toString(36)` for a random double modelled as `num / 2^53`
with `num < 2^53`: `"0"` for zero, otherwise `"0."` followed by the
terminating base-36 expansion of the exact value. -/
def jsRandomString36 (num : Nat) : String :=
  if num = 0 then "0" else "0." ++ String.mk (fracDigits36 54 num)

/-- `Math.random().toString(36).slice(2, 8)`: the characters after the `"0."`
prefix, at most six of them. -/
def jsRandomToken (num : Nat) : String :=
  String.mk (((jsRandomString36 num).data.drop 2).take 6)

/-- `toSlug` from `src/app/api/ingest/route.ts` (the same expression appears
inline in the older route variants).  `rnd` is the numerator of the
`Math.random()` value consumed when the deterministic slug is empty. -/
def toSlug (s : String) (rnd : Nat) : String :=
  let base := String.mk (slugCore s)
  if base = "" then "artifact-" ++ jsRandomToken rnd else base

/-- A character list does not start with a hyphen. -/
def noLeadHyphen (l : List Char) : Bool :=
  match l with
  | [] => true
  | c :: _ => c != '-'

/-- A character list has no two adjacent hyphens. -/
def chainOk : List Char → Bool
  | [] => true
  | [_] => true
  | a :: b :: rest => (!(a == '-' && b == '-')) && chainOk (b :: rest)

/-- The token format the specification claims for the randomized slug
fallback: `"artifact-"` followed by exactly six base-36 characters (stated
from the spec, for comparison with `toSlug`). -/
def artifactToken6 (s : String) : Bool :=
  s.data.take 9 == "artifact-".data
    && (s.data.drop 9).length == 6
    && (s.data.drop 9).all isLowerAlnum

/-- A media entry (`type MediaItem = { type: "image" | "audio"; src: string; alt?: string }`). -/
structure MediaItem where
  type : String
  src : String
  alt : Option String
deriving DecidableEq

/-- The structured record `{ title, summary, media[] }` produced by the
Content Structurer. -/
structure Structured where
  title : String
  summary : String
  media : List MediaItem
deriving DecidableEq

/-- A parsed JSON value, as far as the zod `Shape` distinguishes them: strings,
arrays, objects, `null`, and everything else (numbers, booleans), which the
shape validation rejects uniformly. -/
inductive Jx where
  | str (s : String)
  | arr (elems : List Jx)
  | obj (fields : List (String × Jx))
  | null
  | other

/-- Field access on a parsed JSON object. -/
def getField (fields : List (String × Jx)) (k : String) : Option Jx :=
  (fields.find? (fun p => p.1 == k)).map (fun p => p.2)

/-- Modelled from the spec: the media entries must carry a "valid URL" in
`src` (zod's `z.string().url()`; the zod library is not part of this
repository's sources).  Approximated as a non-empty letters-only scheme
followed by `"://"` and a non-empty remainder; no claim depends on the exact
extension of this predicate. -/
def splitSchemeAux : List Char → Option (List Char × List Char)
  | ':' :: '/' :: '/' :: rest => some ([], rest)
  | c :: rest => (splitSchemeAux rest).map (fun p => (c :: p.1, p.2))
  | [] => none

/-- The URL validity check itself: see `splitSchemeAux`. -/
def isValidUrl (s : String) : Bool :=
  match splitSchemeAux s.data with
  | some (scheme, rest) => scheme != [] && scheme.all Char.isAlpha && rest != []
  | none => false

/-- zod parse of one media array element:
`z.object({ type: z.literal("image"), src: z.string().url(), alt: z.string().optional() })`
(unknown keys are stripped; a missing `alt` is accepted, a non-string `alt` is
rejected). -/
def parseMediaItem (v : Jx) : Option MediaItem :=
  match v with
  | Jx.obj fs =>
    match getField fs "type", getField fs "src", getField fs "alt" with
    | some (Jx.str t), some (Jx.str s), altf =>
      if t = "image" && isValidUrl s then
        match altf with
        | none => some { type := "image", src := s, alt := none }
        | some (Jx.str a) => some { type := "image", src := s, alt := some a }
        | some _ => none
      else none
    | _, _, _ => none
  | _ => none

/-- zod parse of the media array (`z.array(...)`): every element must parse. -/
def parseMediaList : List Jx → Option (List MediaItem)
  | [] => some []
  | v :: vs =>
    match parseMediaItem v, parseMediaList vs with
    | some m, some ms => some (m :: ms)
    | _, _ => none

/-- The `Shape` schema of `src/app/api/ingest/route.ts` (also of the `part_000`
variant): `title: z.string().min(1)`, `summary: z.string().min(1)`,
`media: z.array(...)`.  `none` models a thrown `ZodError`. -/
def shapeParse (v : Jx) : Option Structured :=
  match v with
  | Jx.obj fs =>
    match getField fs "title", getField fs "summary", getField fs "media" with
    | some (Jx.str t), some (Jx.str sm), some (Jx.arr xs) =>
      if 1 ≤ t.length && 1 ≤ sm.length then
        (parseMediaList xs).map (fun ms => ⟨t, sm, ms⟩)
      else none
    | _, _, _ => none
  | _ => none

/-- The `Shape` schema of the `part_008` second route variant, which
additionally bounds the title: `title: z.string().min(1).max(120)`. -/
def shapeParse120 (v : Jx) : Option Structured :=
  match v with
  | Jx.obj fs =>
    match getField fs "title", getField fs "summary", getField fs "media" with
    | some (Jx.str t), some (Jx.str sm), some (Jx.arr xs) =>
      if 1 ≤ t.length && t.length ≤ 120 && 1 ≤ sm.length then
        (parseMediaList xs).map (fun ms => ⟨t, sm, ms⟩)
      else none
    | _, _, _ => none
  | _ => none

/-- The input record of `structureArtifact`:
`{ text: string; imageUrls: string[]; transcript?: string }`. -/
structure StructureInput where
  text : String
  imageUrls : List String
  transcript : Option String
deriving DecidableEq

/-- Outcome of the generation-service interaction up to JSON parsing:
`fail` covers a rejected fetch, a non-2xx response, a missing or non-string
message content, and content that neither `JSON.parse` nor the trailing-brace
extraction could parse (each of these `throw`s in the source, carrying the
recorded message); `json v` is a successfully parsed JSON value, still to be
shape-validated. -/
inductive LLMOutcome where
  | fail (msg : String)
  | json (v : Jx)

/-- The `fallback` constant computed at the top of `structureArtifact` in
`src/app/api/ingest/route.ts`, mirroring the JavaScript expression
(`input.text?.trim() ? input.text.trim().slice(0, 60) :
(input.transcript?.trim()?.slice(0, 60) || "Untitled Artifact")`, a summary
chosen on the truthiness of `input.transcript`, and the image URLs mapped to
image entries). -/
def fallbackOf (input : StructureInput) : Structured :=
  { title :=
      if jsTrim input.text ≠ "" then String.mk ((jsTrim input.text).data.take 60)
      else
        jsOr
          (match input.transcript with
           | some tr => String.mk ((jsTrim tr).data.take 60)
           | none => "")
          "Untitled Artifact"
    summary :=
      if jsTruthy input.transcript then "Generated from notes and audio transcript."
      else "Generated from notes."
    media := input.imageUrls.map (fun u => { type := "image", src := u, alt := none }) }

/-- The fallback record exactly as the specification words it: title is the
first 60 characters of the trimmed notes, else of the trimmed transcript, else
"Untitled Artifact"; summary is a fixed string depending on transcript
presence; media is the image URLs as image entries.  Stated from the spec for
comparison with `fallbackOf`. -/
def fallbackSpec (input : StructureInput) : Structured :=
  { title :=
      if jsTrim input.text ≠ "" then String.mk ((jsTrim input.text).data.take 60)
      else
        match input.transcript with
        | some tr =>
          if jsTrim tr ≠ "" then String.mk ((jsTrim tr).data.take 60)
          else "Untitled Artifact"
        | none => "Untitled Artifact"
    summary :=
      if jsTruthy input.transcript then "Generated from notes and audio transcript."
      else "Generated from notes."
    media := input.imageUrls.map (fun u => { type := "image", src := u, alt := none }) }

/-- `structureArtifact` from `src/app/api/ingest/route.ts`: with no API key the
fallback is returned at once; any failure inside the `try` block (modelled by
`LLMOutcome.fail` and by shape-validation failure) is caught and also yields
the fallback; on success, every supplied image URL not already present in the
validated media is appended as a fresh image entry. -/
def structureArtifact (input : StructureInput) (hasApiKey : Bool) (llm : LLMOutcome) :
    Structured :=
  let fallback := fallbackOf input
  if !hasApiKey then fallback
  else
    match llm with
    | LLMOutcome.fail _ => fallback
    | LLMOutcome.json v =>
      match shapeParse v with
      | none => fallback
      | some safe =>
        let existing := safe.media.map (fun m => m.src)
        let additions :=
          (input.imageUrls.filter (fun u => !(existing.contains u))).map
            (fun u => ({ type := "image", src := u, alt := none } : MediaItem))
        { safe with media := safe.media ++ additions }

/-- `structureArtifact` of the `part_000` route variant: no API-key guard and
no internal catch — service or validation failure is a thrown error,
propagated to the caller; on success all supplied image URLs are appended
unconditionally to the validated media. -/
def structureArtifact0 (input : StructureInput) (llm : LLMOutcome) :
    Except String Structured :=
  match llm with
  | LLMOutcome.fail msg => Except.error msg
  | LLMOutcome.json v =>
    match shapeParse v with
    | none => Except.error "zod shape validation failed"
    | some safe =>
      Except.ok
        { safe with
          media :=
            safe.media ++
              input.imageUrls.map
                (fun u => ({ type := "image", src := u, alt := none } : MediaItem)) }

/-- `structureArtifact` of the `part_008` second route variant: like the live
route it appends the missing image URLs after validation, but it has no
API-key guard and no catch, so service or validation failure is a thrown
error, and its schema bounds the title at 120 characters. -/
def structureArtifact8 (input : StructureInput) (llm : LLMOutcome) :
    Except String Structured :=
  match llm with
  | LLMOutcome.fail msg => Except.error msg
  | LLMOutcome.json v =>
    match shapeParse120 v with
    | none => Except.error "zod shape validation failed"
    | some safe =>
      let existing := safe.media.map (fun m => m.src)
      let additions :=
        (input.imageUrls.filter (fun u => !(existing.contains u))).map
          (fun u => ({ type := "image", src := u, alt := none } : MediaItem))
      Except.ok { safe with media := safe.media ++ additions }

/-- The image-upload loop of `src/app/api/ingest/route.ts` (no per-file catch):
the first upload that throws aborts the request, otherwise every URL is
collected in order. -/
def uploadImagesStrict : List (Except String String) → Except String (List String)
  | [] => Except.ok []
  | Except.error m :: _ => Except.error m
  | Except.ok u :: rest =>
    match uploadImagesStrict rest with
    | Except.ok us => Except.ok (u :: us)
    | Except.error m => Except.error m

/-- The image-upload loop of the `part_000` route variant: each upload is
wrapped in its own try/catch, a failing file is logged and skipped, the
successful URLs are kept in order. -/
def uploadImagesLenient : List (Except String String) → List String
  | [] => []
  | Except.ok u :: rest => u :: uploadImagesLenient rest
  | Except.error _ :: rest => uploadImagesLenient rest

/-- The audio-upload step of the live route (`audioUrl = await
uploadAudioToCloudinary(audio)` with no catch): absent audio yields no URL, a
throwing upload aborts the request. -/
def audioStage : Option (Except String String) → Except String (Option String)
  | none => Except.ok none
  | some (Except.ok u) => Except.ok (some u)
  | some (Except.error m) => Except.error m

/-- Result of one `supabase.from("artifacts").insert(row)` call, as the route
consumes it: either no error, or an error with a `code` and a `message`. -/
inductive DbResult where
  | ok
  | err (code : String) (message : String)
deriving DecidableEq

/-- The route's `err?.code === "42703"` test. -/
def is42703 : DbResult → Bool
  | DbResult.ok => false
  | DbResult.err c _ => c == "42703"

/-- Column set of `fullRow` in `src/app/api/ingest/route.ts`
(`{slug, data, title, summary, owner_id, collection_id}`). -/
def columnsFull : List String :=
  ["slug", "data", "title", "summary", "owner_id", "collection_id"]

/-- Columns of the second insert attempt:
`const { collection_id, ...noCollection } = fullRow`. -/
def columnsNoCollection : List String :=
  ["slug", "data", "title", "summary", "owner_id"]

/-- Columns of the third insert attempt:
`const { title: _t, summary: _s, ...noTitleSummary } = fullRow` — destructured
from `fullRow`, so `collection_id` reappears. -/
def columnsNoTitleSummary : List String :=
  ["slug", "data", "owner_id", "collection_id"]

/-- The insert sequence of the live route (`tryInsert` and the two
`err?.code === "42703"` retries).  The store is modelled as a function from
the submitted column set to a `DbResult`; the returned list records the column
set of every attempt actually made, in order, and the returned `DbResult` is
the value of `err` after the sequence. -/
def runInserts (db : List String → DbResult) : List (List String) × DbResult :=
  let e1 := db columnsFull
  let s1 := ([columnsFull], e1)
  let s2 :=
    if is42703 s1.2 then (s1.1 ++ [columnsNoCollection], db columnsNoCollection) else s1
  let s3 :=
    if is42703 s2.2 then (s2.1 ++ [columnsNoTitleSummary], db columnsNoTitleSummary) else s2
  s3

/-- Hex digit for the UUID pattern (`[0-9a-f]` under the `/i` flag). -/
def isHexDigit (c : Char) : Bool :=
  ('0' ≤ c && c ≤ '9') || ('a' ≤ c && c ≤ 'f') || ('A' ≤ c && c ≤ 'F')

/-- `String.prototype.split`-style split of a character list on hyphens. -/
def splitDash : List Char → List (List Char)
  | [] => [[]]
  | c :: rest =>
    let r := splitDash rest
    if c = '-' then [] :: r
    else
      match r with
      | g :: gs => (c :: g) :: gs
      | [] => [[c]]

/-- The `uuidRegex` test of the `part_008` route variants:
`/^[0-9a-f]{8}-[0-9a-f]{4}-[1-5][0-9a-f]{3}-[89ab][0-9a-f]{3}-[0-9a-f]{12}$/i`
— exactly five hyphen-separated hex groups of lengths 8-4-4-4-12, the third
group starting with a version digit `1`-`5` and the fourth with a variant
character in `[89abAB]`. -/
def isUuid (s : String) : Bool :=
  match splitDash s.data with
  | [a, b, c, d, e] =>
    a.length == 8 && a.all isHexDigit
      && b.length == 4 && b.all isHexDigit
      && c.length == 4 && c.all isHexDigit
      && (match c with
          | ch :: _ => '1' ≤ ch && ch ≤ '5'
          | [] => false)
      && d.length == 4 && d.all isHexDigit
      && (match d with
          | ch :: _ => ch == '8' || ch == '9' || ch == 'a' || ch == 'b' || ch == 'A' || ch == 'B'
          | [] => false)
      && e.length == 12 && e.all isHexDigit
  | _ => false

/-- Outcome of the collections slug lookup
(`supabase.from("collections").select("id").eq("slug", colParam).limit(1)`). -/
inductive LookupOutcome where
  | found (id : String)
  | notFound
  | threw

/-- The Identifier Normalizer of the `part_008` route variants: a UUID-shaped
reference is accepted directly; otherwise the store is consulted for a
matching collection slug (the third component records the queries performed).
A failed lookup leaves the collection unset with a warning; a thrown lookup is
caught silently. -/
def resolveCollection (colParam : Option String) (lookup : String → LookupOutcome) :
    Option String × Option String × List String :=
  match colParam with
  | none => (none, none, [])
  | some p =>
    if isUuid p then (some p, none, [])
    else
      match lookup p with
      | LookupOutcome.found id => (some id, none, [p])
      | LookupOutcome.notFound =>
        (none,
         some ("collectionId provided but not a UUID and no collection found for slug " ++ p),
         [p])
      | LookupOutcome.threw => (none, none, [p])

/-- A JSON response as the routes build them: a status code and an object
whose values are strings or `null`. -/
structure HttpResponse where
  status : Nat
  body : List (String × Option String)
deriving DecidableEq

/-- First-match field lookup in a response body. -/
def jsonLookup (body : List (String × Option String)) (k : String) :
    Option (Option String) :=
  (body.find? (fun p => p.1 == k)).map (fun p => p.2)

/-- The persisted `dataPayload` of the live route (the JSON `data` column). -/
structure DataPayload where
  id : String
  title : String
  summary : String
  media : List MediaItem
  transcript : Option String
  tags : List String
  theme : String
  privacy : String
  collection_id : Option String
  owner_id : String
  created_at : String
deriving DecidableEq

/-- Environment of one request to the live route: the authenticated user (if
any), the form fields, and the outcome of every external call the handler can
make.  `rnd` is the `Math.random()` numerator, `db` the artifacts store
(insert outcome as a function of the submitted column set — an
undefined-column error depends only on which columns the payload carries). -/
structure IngestEnv where
  user : Option String
  text : String
  collectionIdRaw : String
  imageOutcomes : List (Except String String)
  audio : Option (Except String String)
  transcriptOutcome : Option String
  hasApiKey : Bool
  llm : LLMOutcome
  rnd : Nat
  newId : String
  now : String
  db : List String → DbResult

/-- Observable outcome of one live-route request: the HTTP response, the
column sets of the insert attempts actually made (in order), and the persisted
JSON payload when an insert succeeded. -/
structure IngestOutcome where
  resp : HttpResponse
  inserts : List (List String)
  persisted : Option DataPayload
deriving DecidableEq

/-- `POST` of `src/app/api/ingest/route.ts`: auth check, strict image uploads,
strict audio upload with best-effort transcription, `structureArtifact`,
slugging, then `runInserts`; the success body is `{ slug }` only. -/
def routeTsPost (env : IngestEnv) : IngestOutcome :=
  match env.user with
  | none =>
    ⟨⟨401, [("error", some "Unauthorized. Please sign in to create artifacts.")]⟩, [], none⟩
  | some uid =>
    match uploadImagesStrict env.imageOutcomes with
    | Except.error m => ⟨⟨500, [("error", some m)]⟩, [], none⟩
    | Except.ok uploadedImages =>
      match audioStage env.audio with
      | Except.error m => ⟨⟨500, [("error", some m)]⟩, [], none⟩
      | Except.ok audioUrl =>
        let transcript := if env.audio.isSome then env.transcriptOutcome else none
        let structured :=
          structureArtifact ⟨env.text, uploadedImages, transcript⟩ env.hasApiKey env.llm
        let title := jsOr structured.title "Untitled Artifact"
        let summary := jsOr structured.summary "Generated by MVP."
        let media :=
          structured.media ++
            (match audioUrl with
             | some a => [({ type := "audio", src := a, alt := none } : MediaItem)]
             | none => [])
        let slug := toSlug title env.rnd
        let collectionId :=
          if jsTrim env.collectionIdRaw = "" then none else some (jsTrim env.collectionIdRaw)
        let payload : DataPayload :=
          ⟨env.newId, title, summary, media, transcript, [], "museum", "public",
            collectionId, uid, env.now⟩
        let ins := runInserts env.db
        match ins.2 with
        | DbResult.err _ m => ⟨⟨500, [("error", some m)]⟩, ins.1, none⟩
        | DbResult.ok => ⟨⟨200, [("slug", some slug)]⟩, ins.1, some payload⟩

/-- Environment of one request to the `part_000` route variant (no auth check;
a single insert of `{ slug, json }`). -/
structure P0Env where
  text : String
  imageOutcomes : List (Except String String)
  audio : Option (Except String String)
  transcriptOutcome : Option String
  llm : LLMOutcome
  rnd : Nat
  newId : String
  db0 : DbResult

/-- The artifact JSON persisted by the `part_000` route variant. -/
structure Artifact0 where
  id : String
  title : String
  summary : String
  media : List MediaItem
  transcript : Option String
  tags : List String
  theme : String
  privacy : String
deriving DecidableEq

/-- Observable outcome of one `part_000` request. -/
structure P0Out where
  resp : HttpResponse
  inserts : List (List String)
  persisted : Option Artifact0
deriving DecidableEq

/-- `POST` of the `part_000` route variant: at most eight images, each upload
in its own try/catch (failures skipped); audio upload and transcription each
caught; the structurer call caught with local defaults (`text.trim() ||
"Untitled Artifact"`, `"Generated via MVP."`, the uploads as image entries,
replaced by the structured media only when non-empty); one insert of
`{ slug, json }`. -/
def part000Post (env : P0Env) : P0Out :=
  let uploads := uploadImagesLenient (env.imageOutcomes.take 8)
  let audioUrl :=
    match env.audio with
    | some (Except.ok u) => some u
    | _ => none
  let transcript := if env.audio.isSome then env.transcriptOutcome else none
  let t0 := jsOr (jsTrim env.text) "Untitled Artifact"
  let m0 := uploads.map (fun u => ({ type := "image", src := u, alt := none } : MediaItem))
  let tsm :=
    match structureArtifact0 ⟨env.text, uploads, transcript⟩ env.llm with
    | Except.error _ => (t0, "Generated via MVP.", m0)
    | Except.ok st => (st.title, st.summary, if st.media.isEmpty then m0 else st.media)
  let media :=
    tsm.2.2 ++
      (match audioUrl with
       | some a => [({ type := "audio", src := a, alt := none } : MediaItem)]
       | none => [])
  let slug := toSlug tsm.1 env.rnd
  let artifact : Artifact0 :=
    ⟨env.newId, tsm.1, tsm.2.1, media, transcript, [], "museum", "public"⟩
  match env.db0 with
  | DbResult.err _ m => ⟨⟨500, [("error", some m)]⟩, [["slug", "json"]], none⟩
  | DbResult.ok => ⟨⟨200, [("slug", some slug)]⟩, [["slug", "json"]], some artifact⟩

/-- Result of an `insert(...).select("id, slug, collection_id").single()` call
in the `part_008` route variants. -/
inductive DbInsert where
  | ok (id : String) (slug : String) (collection_id : Option String)
  | err (code : String) (message : String)
deriving DecidableEq

/-- Result of the best-effort `update({ collection_id }).select(...)` patch. -/
inductive UpdateOutcome where
  | ok (collection_id : Option String)
  | err (message : String)
  | threw
deriving DecidableEq

/-- Environment of one request to the `part_008` second route variant. -/
structure P8Env where
  user : Option String
  text : String
  colParam : Option String
  lookup : String → LookupOutcome
  imageOutcomes : List (Except String String)
  audio : Option (Except String String)
  transcriptOutcome : Option String
  llm : LLMOutcome
  rnd : Nat
  now : String
  db : List String → DbInsert
  upd : UpdateOutcome

/-- Observable outcome of one `part_008` request: response and the column sets
of the insert attempts made. -/
structure P8Out where
  resp : HttpResponse
  inserts : List (List String)
deriving DecidableEq

/-- Columns of the `part_008` `baseRow`: `collection_id` is spread in only
when a collection identifier was resolved. -/
def p8cols (withCollection : Bool) : List String :=
  ["slug", "data", "title", "summary", "owner_id"] ++
    (if withCollection then ["collection_id"] else [])

/-- The best-effort `collection_id` patch of the `part_008` handler: when a
collection identifier was resolved but the inserted row came back without one,
issue one update; on failure keep (or set) the warning.  Returns the final
collection identifier and the warning. -/
def part8Patch (collectionId : Option String) (warn0 : Option String)
    (upd : UpdateOutcome) (finalCid0 : Option String) : Option String × Option String :=
  if collectionId.isSome && finalCid0.isNone then
    match upd with
    | UpdateOutcome.ok updCid =>
      ((match updCid with
        | some c => some c
        | none => finalCid0), warn0)
    | UpdateOutcome.err m =>
      (finalCid0,
       match warn0 with
       | some w => some w
       | none => some ("inserted but failed to patch collection_id: " ++ m))
    | UpdateOutcome.threw =>
      (finalCid0,
       match warn0 with
       | some w => some w
       | none => some "inserted but failed to patch collection_id (exception).")
  else (finalCid0, warn0)

/-- The tail of the `part_008` handler after a successful insert: the
best-effort `collection_id` patch (`part8Patch`) and the response body
`{id, slug, collection_id, received_collection_param}` plus the optional
`warning`. -/
def part8Finish (colParam : Option String) (collectionId : Option String)
    (warn0 : Option String) (upd : UpdateOutcome)
    (inserted : String × String × Option String) (inserts : List (List String)) : P8Out :=
  let fcw := part8Patch collectionId warn0 upd inserted.2.2
  let body :=
    [("id", some inserted.1), ("slug", some inserted.2.1),
     ("collection_id",
      match fcw.1 with
      | some c => some c
      | none => collectionId),
     ("received_collection_param", colParam)] ++
      (match fcw.2 with
       | some w => [("warning", some w)]
       | none => [])
  ⟨⟨200, body⟩, inserts⟩

/-- `POST` of the `part_008` second route variant: auth, the Identifier
Normalizer (`resolveCollection`), strict uploads, the throwing
`structureArtifact8` (a service failure becomes a 500 through the outer
catch), an insert with `collection_id` spread in only when resolved, one
42703-retry without it, then `part8Finish`.  The row contents are abstracted
to their column names, as in `runInserts`. -/
def part8Post (env : P8Env) : P8Out :=
  match env.user with
  | none => ⟨⟨401, [("error", some "Not authenticated")]⟩, []⟩
  | some _uid =>
    match uploadImagesStrict env.imageOutcomes with
    | Except.error m => ⟨⟨500, [("error", some m)]⟩, []⟩
    | Except.ok uploadedImages =>
      match audioStage env.audio with
      | Except.error m => ⟨⟨500, [("error", some m)]⟩, []⟩
      | Except.ok _audioUrl =>
        match structureArtifact8
            ⟨env.text, uploadedImages,
              if env.audio.isSome then env.transcriptOutcome else none⟩ env.llm with
        | Except.error m => ⟨⟨500, [("error", some m)]⟩, []⟩
        | Except.ok _structured =>
          match env.db (p8cols (resolveCollection env.colParam env.lookup).1.isSome) with
          | DbInsert.ok i s c =>
            part8Finish env.colParam (resolveCollection env.colParam env.lookup).1
              (resolveCollection env.colParam env.lookup).2.1 env.upd (i, s, c)
              [p8cols (resolveCollection env.colParam env.lookup).1.isSome]
          | DbInsert.err code m =>
            if code = "42703" then
              match env.db (p8cols false) with
              | DbInsert.ok i s _ =>
                part8Finish env.colParam (resolveCollection env.colParam env.lookup).1
                  (resolveCollection env.colParam env.lookup).2.1 env.upd (i, s, none)
                  [p8cols (resolveCollection env.colParam env.lookup).1.isSome, p8cols false]
              | DbInsert.err _ m2 =>
                ⟨⟨500, [("error", some m2)]⟩,
                  [p8cols (resolveCollection env.colParam env.lookup).1.isSome, p8cols false]⟩
            else
              ⟨⟨500, [("error", some m)]⟩,
                [p8cols (resolveCollection env.colParam env.lookup).1.isSome]⟩

/-! Helper lemmas about the slug machinery. -/

theorem collapseHyphens_cons_cons (a b : Char) (t : List Char) :
    collapseHyphens (a :: b :: t) =
      if a = '-' ∧ b = '-' then collapseHyphens (b :: t) else a :: collapseHyphens (b :: t) :=
  rfl

theorem dropLeadHyphen_cons (c : Char) (t : List Char) :
    dropLeadHyphen (c :: t) = if c = '-' then t else c :: t :=
  rfl

theorem collapseHyphens_subset : ∀ l : List Char, ∀ c ∈ collapseHyphens l, c ∈ l
  | [] => by simp [collapseHyphens]
  | [a] => by simp [collapseHyphens]
  | a :: b :: t => by
    intro c hc
    rw [collapseHyphens_cons_cons] at hc
    split at hc
    · exact List.mem_cons_of_mem _ (collapseHyphens_subset (b :: t) c hc)
    · rcases List.mem_cons.mp hc with h | h
      · simp [h]
      · exact List.mem_cons_of_mem _ (collapseHyphens_subset (b :: t) c h)

theorem collapseHyphens_head : ∀ (b : Char) (t : List Char),
    ∃ tl, collapseHyphens (b :: t) = b :: tl
  | b, [] => ⟨[], rfl⟩
  | b, r :: rs => by
    rw [collapseHyphens_cons_cons]
    by_cases h : b = '-' ∧ r = '-'
    · obtain ⟨tl, htl⟩ := collapseHyphens_head r rs
      rw [if_pos h, htl]
      exact ⟨tl, by rw [h.1, h.2]⟩
    · rw [if_neg h]
      exact ⟨collapseHyphens (r :: rs), rfl⟩

theorem collapseHyphens_chainOk : ∀ l : List Char, chainOk (collapseHyphens l) = true
  | [] => rfl
  | [_] => rfl
  | a :: b :: t => by
    have ih := collapseHyphens_chainOk (b :: t)
    rw [collapseHyphens_cons_cons]
    split
    · exact ih
    · next h =>
      obtain ⟨tl, htl⟩ := collapseHyphens_head b t
      rw [htl] at ih ⊢
      have hab : (a == '-' && b == '-') = false := by
        rcases Decidable.em (a = '-') with ha | ha
        · rcases Decidable.em (b = '-') with hb | hb
          · exact absurd ⟨ha, hb⟩ h
          · simp [hb]
        · simp [ha]
      simp [chainOk, hab, ih]

theorem noLead_dropLead (l : List Char) (h : chainOk l = true) :
    noLeadHyphen (dropLeadHyphen l) = true := by
  match l with
  | [] => rfl
  | c :: t =>
    rw [dropLeadHyphen_cons]
    by_cases hc : c = '-'
    · rw [if_pos hc]
      match t with
      | [] => rfl
      | d :: t' =>
        rw [hc] at h
        simp only [chainOk, Bool.and_eq_true, Bool.not_eq_true'] at h
        have hd : d ≠ '-' := by
          intro hd
          simp [hd] at h
        simp [noLeadHyphen, hd]
    · simp [hc, noLeadHyphen]

theorem noLead_dropLast (l : List Char) (h : noLeadHyphen l = true) :
    noLeadHyphen l.dropLast = true := by
  match l with
  | [] => rfl
  | [c] => rfl
  | a :: b :: t => simpa [noLeadHyphen, List.dropLast] using h

theorem dropLeadHyphen_subset (l : List Char) : ∀ c ∈ dropLeadHyphen l, c ∈ l := by
  match l with
  | [] => simp [dropLeadHyphen]
  | c :: t =>
    rw [dropLeadHyphen_cons]
    split
    · exact fun x hx => List.mem_cons_of_mem _ hx
    · exact fun x hx => hx

theorem dropTrail_cases (l : List Char) :
    dropTrailHyphen l = l ∨ dropTrailHyphen l = l.dropLast := by
  rcases List.eq_nil_or_concat l with h | ⟨L, b, h⟩
  · subst h; left; rfl
  · subst h
    unfold dropTrailHyphen
    rw [List.concat_eq_append, List.reverse_append]
    simp only [List.reverse_cons, List.reverse_nil, List.nil_append, List.singleton_append]
    rw [dropLeadHyphen_cons]
    by_cases hb : b = '-'
    · right
      simp [hb, List.dropLast_concat]
    · left
      simp [hb]

theorem noLead_dropTrail (l : List Char) (h : noLeadHyphen l = true) :
    noLeadHyphen (dropTrailHyphen l) = true := by
  rcases dropTrail_cases l with hc | hc
  · rw [hc]; exact h
  · rw [hc]; exact noLead_dropLast l h

theorem dropTrail_subset (l : List Char) : ∀ c ∈ dropTrailHyphen l, c ∈ l := by
  rcases dropTrail_cases l with hc | hc
  · rw [hc]; exact fun _ hx => hx
  · rw [hc]; exact fun _ hx => (List.dropLast_sublist _).subset hx

theorem noLead_take (l : List Char) (n : Nat) (h : noLeadHyphen l = true) :
    noLeadHyphen (l.take n) = true := by
  match l, n with
  | [], _ => simp [noLeadHyphen]
  | _ :: _, 0 => rfl
  | c :: t, n + 1 => simpa [noLeadHyphen, List.take] using h

theorem slugCore_chars (s : String) :
    ∀ c ∈ slugCore s, isLowerAlnum c = true ∨ c = '-' := by
  intro c hc
  unfold slugCore at hc
  have h1 := List.take_subset _ _ hc
  have h2 := dropTrail_subset _ _ h1
  have h3 := dropLeadHyphen_subset _ _ h2
  have h4 := collapseHyphens_subset _ c h3
  obtain ⟨d, _, hd⟩ := List.mem_map.mp h4
  unfold hyphChar at hd
  by_cases hda : isLowerAlnum d = true
  · left; rw [if_pos hda] at hd; rwa [← hd]
  · right; rw [if_neg hda] at hd; exact hd.symm

theorem slugCore_noLead (s : String) : noLeadHyphen (slugCore s) = true := by
  unfold slugCore
  exact noLead_take _ _ (noLead_dropTrail _ (noLead_dropLead _ (collapseHyphens_chainOk _)))

theorem slugCore_len (s : String) : (slugCore s).length ≤ 60 := by
  unfold slugCore
  exact (List.length_take 60 _).le.trans (min_le_left _ _)

theorem digitChar36_alnum : ∀ d : Nat, d < 36 → isLowerAlnum (digitChar36 d) = true := by
  decide

theorem fracDigits36_chars : ∀ (fuel num : Nat), num < 2 ^ 53 →
    ∀ c ∈ fracDigits36 fuel num, isLowerAlnum c = true := by
  intro fuel
  induction fuel with
  | zero => intro num _ c hc; simp [fracDigits36] at hc
  | succ f ih =>
    intro num hnum c hc
    rw [fracDigits36] at hc
    by_cases hz : num = 0
    · simp [hz] at hc
    · rw [if_neg hz] at hc
      rcases List.mem_cons.mp hc with hc | hc
      · subst hc
        apply digitChar36_alnum
        apply Nat.div_lt_of_lt_mul
        exact (Nat.mul_lt_mul_right (by norm_num)).mpr hnum
      · exact ih _ (Nat.mod_lt _ (by positivity)) c hc

theorem jsRandomToken_chars (num : Nat) (h : num < 2 ^ 53) :
    ∀ c ∈ (jsRandomToken num).data, isLowerAlnum c = true := by
  intro c hc
  unfold jsRandomToken jsRandomString36 at hc
  by_cases hz : num = 0
  · simp [hz] at hc
  · rw [if_neg hz] at hc
    have hdata : ("0." ++ String.mk (fracDigits36 54 num)).data
        = '0' :: '.' :: fracDigits36 54 num := rfl
    rw [hdata] at hc
    simp only [List.drop] at hc
    exact fracDigits36_chars 54 num h c (List.take_subset _ _ hc)

theorem jsRandomToken_len (num : Nat) : (jsRandomToken num).length ≤ 6 := by
  show (((jsRandomString36 num).data.drop 2).take 6).length ≤ 6
  exact (List.length_take 6 _).le.trans (min_le_left _ _)

/-! Helper lemmas about the Content Structurer. -/

theorem mk_take_eq_empty_iff (t : String) : String.mk (t.data.take 60) = "" ↔ t = "" := by
  rw [String.ext_iff, String.ext_iff]
  show t.data.take 60 = [] ↔ t.data = []
  rw [List.take_eq_nil_iff]
  simp

theorem fallbackOf_eq_spec (input : StructureInput) : fallbackOf input = fallbackSpec input := by
  obtain ⟨text, urls, tr⟩ := input
  unfold fallbackOf fallbackSpec
  by_cases htext : jsTrim text = ""
  · simp only [htext, ne_eq, not_true_eq_false, if_false]
    cases tr with
    | none => simp [jsOr]
    | some t =>
      by_cases h : jsTrim t = ""
      · simp [h, jsOr]
      · have hne : String.mk ((jsTrim t).data.take 60) ≠ "" :=
          fun hc => h ((mk_take_eq_empty_iff (jsTrim t)).mp hc)
        simp [jsOr, hne, h]
  · simp [htext]

theorem structureArtifact_noKey (input : StructureInput) (llm : LLMOutcome) :
    structureArtifact input false llm = fallbackOf input := rfl

theorem structureArtifact_fail (input : StructureInput) (m : String) :
    structureArtifact input true (LLMOutcome.fail m) = fallbackOf input := rfl

theorem structureArtifact_badShape (input : StructureInput) (v : Jx)
    (h : shapeParse v = none) :
    structureArtifact input true (LLMOutcome.json v) = fallbackOf input := by
  simp [structureArtifact, h]

theorem structureArtifact_ok (input : StructureInput) (v : Jx) (safe : Structured)
    (h : shapeParse v = some safe) :
    structureArtifact input true (LLMOutcome.json v) =
      { safe with
        media :=
          safe.media ++
            (input.imageUrls.filter
              (fun u => !((safe.media.map (fun m => m.src)).contains u))).map
              (fun u => ({ type := "image", src := u, alt := none } : MediaItem)) } := by
  simp [structureArtifact, h]

theorem fallbackOf_media_src (input : StructureInput) :
    (fallbackOf input).media.map (fun m => m.src) = input.imageUrls := by
  show (input.imageUrls.map fun u =>
      ({ type := "image", src := u, alt := none } : MediaItem)).map (fun m => m.src)
    = input.imageUrls
  rw [List.map_map]
  exact List.map_id'' (fun x => rfl) _

theorem mem_structureArtifact_media (input : StructureInput) (k : Bool) (llm : LLMOutcome)
    (u : String) (hu : u ∈ input.imageUrls) :
    u ∈ (structureArtifact input k llm).media.map (fun m => m.src) := by
  cases k with
  | false => rw [structureArtifact_noKey, fallbackOf_media_src]; exact hu
  | true =>
    cases llm with
    | fail m => rw [structureArtifact_fail, fallbackOf_media_src]; exact hu
    | json v =>
      cases hv : shapeParse v with
      | none => rw [structureArtifact_badShape input v hv, fallbackOf_media_src]; exact hu
      | some safe =>
        rw [structureArtifact_ok input v safe hv]
        simp only [List.map_append]
        cases hcb : (safe.media.map (fun m => m.src)).contains u with
        | true => exact List.mem_append_left _ (List.elem_iff.mp hcb)
        | false =>
          apply List.mem_append_right
          simp only [List.map_map]
          apply List.mem_map.mpr
          refine ⟨u, ?_, rfl⟩
          apply List.mem_filter.mpr
          exact ⟨hu, by rw [hcb]; rfl⟩

theorem parseMediaItem_type (v : Jx) (m : MediaItem) (h : parseMediaItem v = some m) :
    m.type = "image" := by
  unfold parseMediaItem at h
  split at h
  case h_2 => exact Option.noConfusion h
  split at h
  case h_2 => exact Option.noConfusion h
  split at h
  case isFalse => exact Option.noConfusion h
  split at h
  case h_3 => exact Option.noConfusion h
  all_goals (injection h with h; rw [← h])

theorem parseMediaList_types :
    ∀ (xs : List Jx) (ms : List MediaItem), parseMediaList xs = some ms →
      ∀ m ∈ ms, m.type = "image"
  | [], ms, h => by
    injection h with h
    subst h
    intro m hm
    exact absurd hm (List.not_mem_nil m)
  | v :: vs, ms, h => by
    unfold parseMediaList at h
    split at h
    · next mi mis hmi hmis =>
      injection h with h
      subst h
      intro m hm
      rcases List.mem_cons.mp hm with hm | hm
      · subst hm; exact parseMediaItem_type v m hmi
      · exact parseMediaList_types vs mis hmis m hm
    · exact Option.noConfusion h

theorem shapeParse_types (v : Jx) (safe : Structured) (h : shapeParse v = some safe) :
    ∀ m ∈ safe.media, m.type = "image" := by
  unfold shapeParse at h
  split at h
  case h_2 => exact Option.noConfusion h
  split at h
  case h_2 => exact Option.noConfusion h
  split at h
  case isFalse => exact Option.noConfusion h
  rw [Option.map_eq_some'] at h
  obtain ⟨ms, hml, hsafe⟩ := h
  rw [← hsafe]
  intro m hm
  exact parseMediaList_types _ ms hml m hm

theorem structureArtifact_types (input : StructureInput) (k : Bool) (llm : LLMOutcome) :
    ∀ m ∈ (structureArtifact input k llm).media, m.type = "image" := by
  have hfb : ∀ m ∈ (fallbackOf input).media, m.type = "image" := by
    intro m hm
    obtain ⟨u, _, hu⟩ := List.mem_map.mp hm
    rw [← hu]
  cases k with
  | false => rw [structureArtifact_noKey]; exact hfb
  | true =>
    cases llm with
    | fail m => rw [structureArtifact_fail]; exact hfb
    | json v =>
      cases hv : shapeParse v with
      | none => rw [structureArtifact_badShape input v hv]; exact hfb
      | some safe =>
        rw [structureArtifact_ok input v safe hv]
        intro m hm
        rcases List.mem_append.mp hm with hm | hm
        · exact shapeParse_types v safe hv m hm
        · obtain ⟨u, _, hu⟩ := List.mem_map.mp hm
          rw [← hu]

theorem audioStage_ok_cases (o : Option (Except String String)) (r : Option String)
    (h : audioStage o = Except.ok r) :
    (r = none ∧ o = none) ∨ ∃ u, r = some u ∧ o = some (Except.ok u) := by
  match o with
  | none =>
    left
    injection h with h
    exact ⟨h.symm, rfl⟩
  | some (Except.ok u) =>
    right
    injection h with h
    exact ⟨u, h.symm, rfl⟩
  | some (Except.error m) => exact Except.noConfusion h

theorem routeTsPost_persisted (env : IngestEnv) (a : DataPayload)
    (h : (routeTsPost env).persisted = some a) :
    ∃ uid urls audioUrl,
      env.user = some uid ∧
      uploadImagesStrict env.imageOutcomes = Except.ok urls ∧
      audioStage env.audio = Except.ok audioUrl ∧
      a.media =
        (structureArtifact ⟨env.text, urls,
            if env.audio.isSome then env.transcriptOutcome else none⟩
            env.hasApiKey env.llm).media ++
          (match audioUrl with
           | some x => [({ type := "audio", src := x, alt := none } : MediaItem)]
           | none => []) := by
  unfold routeTsPost at h
  match hu : env.user with
  | none => rw [hu] at h; exact Option.noConfusion h
  | some uid =>
    rw [hu] at h
    match hup : uploadImagesStrict env.imageOutcomes with
    | Except.error m => rw [hup] at h; exact Option.noConfusion h
    | Except.ok urls =>
      rw [hup] at h
      match hau : audioStage env.audio with
      | Except.error m => rw [hau] at h; exact Option.noConfusion h
      | Except.ok audioUrl =>
        rw [hau] at h
        simp only at h
        split at h
        · exact Option.noConfusion h
        · injection h with h
          refine ⟨uid, urls, audioUrl, rfl, rfl, rfl, ?_⟩
          rw [← h]

theorem string_data_append (a b : String) : (a ++ b).data = a.data ++ b.data := rfl

/-- Claim C4, counterexample: for a title of 59 letters, a space and one more
letter, the hyphen-trim runs before the 60-character truncation, so the
returned slug ends in a hyphen — refuting the no-trailing-hyphen conjunct of
the claim as stated. -/
theorem C4_slug_claim_counterexample :
    toSlug (String.mk (List.replicate 59 'a' ++ [' ', 'b'])) 7
        = String.mk (List.replicate 59 'a' ++ ['-'])
      ∧ (toSlug (String.mk (List.replicate 59 'a' ++ [' ', 'b'])) 7).data.getLast?
        = some '-' := by
  refine ⟨by decide, by decide⟩

/-- Claim C4 (amended): for every title and every random numerator below
`2^53`, the slug is non-empty, made of lowercase alphanumerics and hyphens
only, has no leading hyphen, and is at most 60 characters long; a trailing
hyphen is possible (see the counterexample), so that conjunct is dropped. -/
theorem C4_slug_props (s : String) (n : Nat) (h53 : n < 2 ^ 53) :
    toSlug s n ≠ ""
      ∧ (∀ c ∈ (toSlug s n).data, isLowerAlnum c = true ∨ c = '-')
      ∧ noLeadHyphen ((toSlug s n).data) = true
      ∧ (toSlug s n).length ≤ 60 := by
  have h9 : ("artifact-" : String).length = 9 := rfl
  simp only [toSlug]
  by_cases hb : String.mk (slugCore s) = ""
  · rw [if_pos hb]
    refine ⟨?_, ?_, ?_, ?_⟩
    · intro hc
      have hlen : ("artifact-" ++ jsRandomToken n).length = 0 := by rw [hc]; rfl
      rw [String.length_append, h9] at hlen
      omega
    · intro c hc
      rw [string_data_append] at hc
      rcases List.mem_append.mp hc with hc | hc
      · exact (by decide : ∀ c ∈ ("artifact-" : String).data,
          isLowerAlnum c = true ∨ c = '-') c hc
      · exact Or.inl (jsRandomToken_chars n h53 c hc)
    · rfl
    · rw [String.length_append, h9]
      have := jsRandomToken_len n
      omega
  · rw [if_neg hb]
    exact ⟨hb, fun c hc => slugCore_chars s c hc, slugCore_noLead s, slugCore_len s⟩

/-- Witness for `C4_slug_props` at a concrete title and random value. -/
theorem C4_slug_props_witness :
    (0 : Nat) < 2 ^ 53
      ∧ toSlug "Hello World" 0 ≠ ""
      ∧ noLeadHyphen ((toSlug "Hello World" 0).data) = true
      ∧ (toSlug "Hello World" 0).length ≤ 60 :=
  ⟨by norm_num, (C4_slug_props "Hello World" 0 (by norm_num)).1,
    (C4_slug_props "Hello World" 0 (by norm_num)).2.2.1,
    (C4_slug_props "Hello World" 0 (by norm_num)).2.2.2⟩

/-- Claim C9, counterexample: the random value `0.5` (numerator `2^52`) has
base-36 representation `"0.i"`, so `slice(2, 8)` yields the single character
`"i"` and the fallback slug is `"artifact-i"`, which does not match
`artifact-[0-9a-z]{6}`. -/
theorem C9_token_counterexample :
    slugCore "!!!" = []
      ∧ toSlug "!!!" (2 ^ 52) = "artifact-i"
      ∧ artifactToken6 (toSlug "!!!" (2 ^ 52)) = false := by
  refine ⟨by decide, by decide, by decide⟩

/-- Claim C9 (amended): for every title whose slugification is empty and every
random numerator below `2^53`, the output is `"artifact-"` followed by at most
six base-36 characters (possibly fewer than six, e.g. one for the random value
`0.5` and zero for `0`). -/
theorem C9_token_shape (s : String) (n : Nat) (h53 : n < 2 ^ 53)
    (hempty : slugCore s = []) :
    ∃ t : String, toSlug s n = "artifact-" ++ t
      ∧ t.length ≤ 6 ∧ ∀ c ∈ t.data, isLowerAlnum c = true := by
  have hb : String.mk (slugCore s) = "" := by rw [hempty]
  refine ⟨jsRandomToken n, ?_, jsRandomToken_len n, jsRandomToken_chars n h53⟩
  simp only [toSlug]
  rw [if_pos hb]

/-- Witness for `C9_token_shape` at a symbol-only title and the random value
`0.5`. -/
theorem C9_token_shape_witness :
    2 ^ 52 < 2 ^ 53
      ∧ slugCore "???" = []
      ∧ ∃ t : String, toSlug "???" (2 ^ 52) = "artifact-" ++ t
          ∧ t.length ≤ 6 ∧ ∀ c ∈ t.data, isLowerAlnum c = true :=
  ⟨by norm_num, by decide, C9_token_shape "???" (2 ^ 52) (by norm_num) (by decide)⟩

/-- Claim C3: whenever the generation service is unavailable (no API key),
fails, or returns output that fails shape validation, `structureArtifact`
returns exactly the fallback record described by the specification
(`fallbackSpec`); being a Lean function of its inputs, this branch is
deterministic and total (the source wraps the whole service interaction in a
try/catch, so no exception escapes). -/
theorem C3_structurer_fallback :
    (∀ (input : StructureInput) (llm : LLMOutcome),
        structureArtifact input false llm = fallbackSpec input)
      ∧ (∀ (input : StructureInput) (m : String),
          structureArtifact input true (LLMOutcome.fail m) = fallbackSpec input)
      ∧ (∀ (input : StructureInput) (v : Jx), shapeParse v = none →
          structureArtifact input true (LLMOutcome.json v) = fallbackSpec input) :=
  ⟨fun input llm => (structureArtifact_noKey input llm).trans (fallbackOf_eq_spec input),
   fun input m => (structureArtifact_fail input m).trans (fallbackOf_eq_spec input),
   fun input v h => (structureArtifact_badShape input v h).trans (fallbackOf_eq_spec input)⟩

/-- Witness for `C3_structurer_fallback`: a shape-validation failure
(`Jx.null`) at a concrete input yields the spec's fallback record. -/
theorem C3_structurer_fallback_witness :
    shapeParse Jx.null = none
      ∧ structureArtifact ⟨"notes", ["https://img.example/a.jpg"], none⟩ true
          (LLMOutcome.json Jx.null)
        = fallbackSpec ⟨"notes", ["https://img.example/a.jpg"], none⟩ :=
  ⟨rfl, C3_structurer_fallback.2.2 ⟨"notes", ["https://img.example/a.jpg"], none⟩ Jx.null rfl⟩

/-- Claim C1: (1) every successfully uploaded image URL of a persisted run
appears in the persisted artifact's media sequence; (2) on generation success
the URLs missing from the validated media are appended after it; (3) on the
fallback paths the media is exactly the uploaded URLs mapped to image
entries. -/
theorem C1_uploaded_images_in_media :
    (∀ (env : IngestEnv) (a : DataPayload) (urls : List String),
        (routeTsPost env).persisted = some a →
        uploadImagesStrict env.imageOutcomes = Except.ok urls →
        ∀ u ∈ urls, u ∈ a.media.map (fun m => m.src))
      ∧ (∀ (input : StructureInput) (v : Jx) (safe : Structured), shapeParse v = some safe →
          (structureArtifact input true (LLMOutcome.json v)).media =
            safe.media ++
              (input.imageUrls.filter
                (fun u => !((safe.media.map (fun m => m.src)).contains u))).map
                (fun u => ({ type := "image", src := u, alt := none } : MediaItem)))
      ∧ (∀ (input : StructureInput) (llm : LLMOutcome) (m : String),
          (structureArtifact input false llm).media
              = input.imageUrls.map
                  (fun u => ({ type := "image", src := u, alt := none } : MediaItem))
            ∧ (structureArtifact input true (LLMOutcome.fail m)).media
              = input.imageUrls.map
                  (fun u => ({ type := "image", src := u, alt := none } : MediaItem))) := by
  refine ⟨?_, ?_, ?_⟩
  · intro env a urls hp hup u hu
    obtain ⟨uid, urls', au, _, hup', _, hmedia⟩ := routeTsPost_persisted env a hp
    have heq : urls' = urls := by
      rw [hup'] at hup
      injection hup
    subst heq
    rw [hmedia, List.map_append]
    exact List.mem_append_left _ (mem_structureArtifact_media _ _ _ u hu)
  · intro input v safe h
    rw [structureArtifact_ok input v safe h]
  · intro input llm m
    exact ⟨rfl, rfl⟩

/-- Concrete environment for the `C1_uploaded_images_in_media` witness. -/
def C1env : IngestEnv :=
  { user := some "u1", text := "hi", collectionIdRaw := "",
    imageOutcomes := [Except.ok "https://img.example/a.jpg"],
    audio := none, transcriptOutcome := none, hasApiKey := false,
    llm := LLMOutcome.fail "service down", rnd := 0, newId := "id1", now := "t0",
    db := fun _ => DbResult.ok }

/-- The payload `C1env` persists. -/
def C1payload : DataPayload :=
  ⟨"id1", "hi", "Generated from notes.",
    [⟨"image", "https://img.example/a.jpg", none⟩],
    none, [], "museum", "public", none, "u1", "t0"⟩

/-- Witness for `C1_uploaded_images_in_media` at a concrete run. -/
theorem C1_uploaded_images_in_media_witness :
    (routeTsPost C1env).persisted = some C1payload
      ∧ uploadImagesStrict C1env.imageOutcomes = Except.ok ["https://img.example/a.jpg"]
      ∧ "https://img.example/a.jpg" ∈ C1payload.media.map (fun m => m.src) :=
  ⟨by decide, rfl,
    C1_uploaded_images_in_media.1 C1env C1payload ["https://img.example/a.jpg"]
      (by decide) rfl "https://img.example/a.jpg" (by decide)⟩

/-- Claim C10: a persisted artifact's media carries at most one audio entry;
exactly one exactly when the audio upload succeeded, and then the audio entry
is last, preceded only by image entries. -/
theorem C10_audio_last (env : IngestEnv) (a : DataPayload)
    (h : (routeTsPost env).persisted = some a) :
    a.media.countP (fun m => m.type == "audio") ≤ 1
      ∧ (a.media.countP (fun m => m.type == "audio") = 1
          ↔ ∃ u, env.audio = some (Except.ok u))
      ∧ ∀ u, env.audio = some (Except.ok u) →
          ∃ imgs,
            a.media = imgs ++ [({ type := "audio", src := u, alt := none } : MediaItem)]
              ∧ ∀ m ∈ imgs, m.type = "image" := by
  obtain ⟨uid, urls, au, huser, hup, hau, hmedia⟩ := routeTsPost_persisted env a h
  have hz :
      (structureArtifact
          ⟨env.text, urls, if env.audio.isSome then env.transcriptOutcome else none⟩
          env.hasApiKey env.llm).media.countP (fun m => m.type == "audio") = 0 := by
    rw [List.countP_eq_zero]
    intro m hm
    have ht := structureArtifact_types _ _ _ m hm
    simp [ht]
  rcases audioStage_ok_cases env.audio au hau with ⟨hr, ho⟩ | ⟨u, hr, ho⟩
  · subst hr
    rw [hmedia]
    refine ⟨?_, ?_, ?_⟩
    · simp [List.countP_append, hz]
    · constructor
      · intro hc
        rw [List.countP_append, hz] at hc
        simp at hc
      · rintro ⟨u, hu⟩
        rw [ho] at hu
        exact Option.noConfusion hu
    · intro u hu
      rw [ho] at hu
      exact Option.noConfusion hu
  · subst hr
    rw [hmedia]
    refine ⟨?_, ?_, ?_⟩
    · simp [List.countP_append, hz, List.countP_cons]
    · constructor
      · intro _
        exact ⟨u, ho⟩
      · intro _
        simp [List.countP_append, hz, List.countP_cons]
    · intro u' hu'
      rw [ho] at hu'
      injection hu' with hu'
      injection hu' with hu'
      refine ⟨(structureArtifact
          ⟨env.text, urls, if env.audio.isSome then env.transcriptOutcome else none⟩
          env.hasApiKey env.llm).media, by rw [hu'], ?_⟩
      exact structureArtifact_types _ _ _

/-- Concrete environment for the `C10_audio_last` witness (one image, one
successfully uploaded audio note). -/
def C10env : IngestEnv :=
  { user := some "u2", text := "story", collectionIdRaw := "",
    imageOutcomes := [Except.ok "https://img.example/b.jpg"],
    audio := some (Except.ok "https://aud.example/n.webm"),
    transcriptOutcome := some "hello", hasApiKey := false,
    llm := LLMOutcome.fail "service down", rnd := 0, newId := "id2", now := "t1",
    db := fun _ => DbResult.ok }

/-- The payload `C10env` persists. -/
def C10payload : DataPayload :=
  ⟨"id2", "story", "Generated from notes and audio transcript.",
    [⟨"image", "https://img.example/b.jpg", none⟩,
     ⟨"audio", "https://aud.example/n.webm", none⟩],
    some "hello", [], "museum", "public", none, "u2", "t1"⟩

/-- Witness for `C10_audio_last` at a concrete run with audio. -/
theorem C10_audio_last_witness :
    (routeTsPost C10env).persisted = some C10payload
      ∧ (C10payload.media.countP (fun m => m.type == "audio") ≤ 1
          ∧ (C10payload.media.countP (fun m => m.type == "audio") = 1
              ↔ ∃ u, C10env.audio = some (Except.ok u))
          ∧ ∀ u, C10env.audio = some (Except.ok u) →
              ∃ imgs,
                C10payload.media
                    = imgs ++ [({ type := "audio", src := u, alt := none } : MediaItem)]
                  ∧ ∀ m ∈ imgs, m.type = "image") :=
  ⟨by decide, C10_audio_last C10env C10payload (by decide)⟩

/-- Claim C8: an unauthenticated request is answered with status 401 and an
error body, no insert is attempted and nothing is persisted. -/
theorem C8_unauthorized (env : IngestEnv) (h : env.user = none) :
    routeTsPost env =
      ⟨⟨401, [("error", some "Unauthorized. Please sign in to create artifacts.")]⟩,
        [], none⟩ := by
  unfold routeTsPost
  rw [h]

/-- Concrete environment for the `C8_unauthorized` witness. -/
def C8env : IngestEnv :=
  { user := none, text := "hi", collectionIdRaw := "",
    imageOutcomes := [Except.ok "https://img.example/a.jpg"],
    audio := none, transcriptOutcome := none, hasApiKey := true,
    llm := LLMOutcome.fail "x", rnd := 0, newId := "id3", now := "t2",
    db := fun _ => DbResult.ok }

/-- Witness for `C8_unauthorized`. -/
theorem C8_unauthorized_witness :
    C8env.user = none
      ∧ routeTsPost C8env =
        ⟨⟨401, [("error", some "Unauthorized. Please sign in to create artifacts.")]⟩,
          [], none⟩ :=
  ⟨rfl, C8_unauthorized C8env rfl⟩

/-- A store whose `artifacts` table lacks both the `collection_id` and the
`title` columns: any insert naming one of them fails with code 42703. -/
def dbMissingTwo : List String → DbResult := fun cols =>
  if cols.contains "collection_id" then
    DbResult.err "42703" "column collection_id does not exist"
  else if cols.contains "title" then
    DbResult.err "42703" "column title does not exist"
  else DbResult.ok

/-- Concrete environment exercising `dbMissingTwo` through the live route. -/
def C2env : IngestEnv :=
  { user := some "u1", text := "hi", collectionIdRaw := "",
    imageOutcomes := [], audio := none, transcriptOutcome := none,
    hasApiKey := false, llm := LLMOutcome.fail "x", rnd := 0, newId := "id4",
    now := "t3", db := dbMissingTwo }

/-- Claim C2: evaluating the insert sequence against a store missing both
`collection_id` and `title` shows the third attempt re-submits the
`collection_id` column that the second attempt had removed — its column set is
not a subset of the previous attempt's — so the whole request fails with the
42703 error even though the progressive payload `{slug, data, owner_id}` would
have succeeded. -/
theorem C2_schema_regression :
    runInserts dbMissingTwo
        = ([columnsFull, columnsNoCollection, columnsNoTitleSummary],
           DbResult.err "42703" "column collection_id does not exist")
      ∧ columnsNoTitleSummary.contains "collection_id" = true
      ∧ columnsNoCollection.contains "collection_id" = false
      ∧ dbMissingTwo ["slug", "data", "owner_id"] = DbResult.ok
      ∧ (routeTsPost C2env).resp
        = ⟨500, [("error", some "column collection_id does not exist")]⟩ := by
  refine ⟨by decide, by decide, by decide, by decide, by decide⟩

/-- Claim C7: a UUID-shaped collection reference is returned unchanged, with
no warning and no query against the collection store. -/
theorem C7_uuid_passthrough (p : String) (lookup : String → LookupOutcome)
    (h : isUuid p = true) :
    resolveCollection (some p) lookup = (some p, none, []) := by
  simp [resolveCollection, h]

/-- Witness for `C7_uuid_passthrough` at a concrete UUID (the lookup function
answers every query, and is never consulted). -/
theorem C7_uuid_passthrough_witness :
    isUuid "123e4567-e89b-12d3-a456-426614174000" = true
      ∧ resolveCollection (some "123e4567-e89b-12d3-a456-426614174000")
          (fun _ => LookupOutcome.notFound)
        = (some "123e4567-e89b-12d3-a456-426614174000", none, []) :=
  ⟨by decide, C7_uuid_passthrough _ _ (by decide)⟩

/-- Concrete environment showing the live route's reaction to one failing
image upload among two. -/
def C5env : IngestEnv :=
  { user := some "u1", text := "notes", collectionIdRaw := "",
    imageOutcomes := [Except.error "upload failed", Except.ok "https://img.example/2.jpg"],
    audio := none, transcriptOutcome := none, hasApiKey := false,
    llm := LLMOutcome.fail "x", rnd := 0, newId := "id5", now := "t4",
    db := fun _ => DbResult.ok }

/-- Claim C5, counterexample: in the live route a single failing image upload
is not caught — the whole request fails with status 500 carrying that upload's
error, no insert is attempted and nothing is persisted, even though the second
image would have uploaded fine. -/
theorem C5_route_counterexample :
    routeTsPost C5env = ⟨⟨500, [("error", some "upload failed")]⟩, [], none⟩ := by
  decide

theorem uploadImagesLenient_eq_filterMap :
    ∀ l : List (Except String String), uploadImagesLenient l = l.filterMap Except.toOption
  | [] => rfl
  | Except.ok u :: rest => by
    simp [uploadImagesLenient, List.filterMap_cons, Except.toOption,
      uploadImagesLenient_eq_filterMap rest]
  | Except.error m :: rest => by
    simp [uploadImagesLenient, List.filterMap_cons, Except.toOption,
      uploadImagesLenient_eq_filterMap rest]

/-- Claim C5 (amended): the skip-and-continue behaviour belongs to the
`part_000` variant — there, whatever the per-file outcomes, the successful
uploads among the first eight files are kept in order and the pipeline always
reaches its single insert; with a healthy store the request still succeeds. -/
theorem C5_lenient_variant (env : P0Env) :
    (part000Post env).inserts = [["slug", "json"]]
      ∧ uploadImagesLenient (env.imageOutcomes.take 8)
          = (env.imageOutcomes.take 8).filterMap Except.toOption
      ∧ (env.db0 = DbResult.ok → (part000Post env).resp.status = 200) := by
  refine ⟨?_, uploadImagesLenient_eq_filterMap _, ?_⟩
  · unfold part000Post
    cases env.db0 <;> rfl
  · intro h
    unfold part000Post
    rw [h]

/-- Concrete environment for the `C5_lenient_variant` witness: the first
upload fails, the second succeeds, the store accepts the insert. -/
def C5envLenient : P0Env :=
  { text := "notes",
    imageOutcomes := [Except.error "boom", Except.ok "https://img.example/2.jpg"],
    audio := none, transcriptOutcome := none, llm := LLMOutcome.fail "x",
    rnd := 0, newId := "id6", db0 := DbResult.ok }

/-- Witness for `C5_lenient_variant`. -/
theorem C5_lenient_variant_witness :
    (part000Post C5envLenient).inserts = [["slug", "json"]]
      ∧ (part000Post C5envLenient).resp.status = 200 :=
  ⟨(C5_lenient_variant C5envLenient).1, (C5_lenient_variant C5envLenient).2.2 rfl⟩

theorem jsonLookup_cons (k k' : String) (v : Option String)
    (rest : List (String × Option String)) :
    jsonLookup ((k', v) :: rest) k = if (k' == k) = true then some v else jsonLookup rest k := by
  cases h : (k' == k) <;> simp [jsonLookup, List.find?, h]

theorem part8Finish_fields (cp cid w0 : Option String) (upd : UpdateOutcome)
    (ins : String × String × Option String) (tr : List (List String)) :
    jsonLookup (part8Finish cp cid w0 upd ins tr).resp.body "id" = some (some ins.1)
      ∧ jsonLookup (part8Finish cp cid w0 upd ins tr).resp.body "slug" = some (some ins.2.1)
      ∧ (∃ c, jsonLookup (part8Finish cp cid w0 upd ins tr).resp.body "collection_id" = some c)
      ∧ (∀ w, jsonLookup (part8Finish cp cid w0 upd ins tr).resp.body "warning" = some w →
          ∃ ws, w = some ws) := by
  rcases hp : part8Patch cid w0 upd ins.2.2 with ⟨p1, p2⟩
  simp only [part8Finish, hp]
  cases p1 with
  | none =>
    cases p2 with
    | none =>
      refine ⟨by simp [jsonLookup_cons], by simp [jsonLookup_cons],
        ⟨cid, by simp [jsonLookup_cons]⟩, ?_⟩
      intro w hwl
      simp [jsonLookup_cons, jsonLookup] at hwl
    | some w' =>
      refine ⟨by simp [jsonLookup_cons], by simp [jsonLookup_cons],
        ⟨cid, by simp [jsonLookup_cons]⟩, ?_⟩
      intro w hwl
      simp [jsonLookup_cons, jsonLookup] at hwl
      exact ⟨w', hwl.symm⟩
  | some c1 =>
    cases p2 with
    | none =>
      refine ⟨by simp [jsonLookup_cons], by simp [jsonLookup_cons],
        ⟨some c1, by simp [jsonLookup_cons]⟩, ?_⟩
      intro w hwl
      simp [jsonLookup_cons, jsonLookup] at hwl
    | some w' =>
      refine ⟨by simp [jsonLookup_cons], by simp [jsonLookup_cons],
        ⟨some c1, by simp [jsonLookup_cons]⟩, ?_⟩
      intro w hwl
      simp [jsonLookup_cons, jsonLookup] at hwl
      exact ⟨w', hwl.symm⟩

/-- Concrete successful run of the live route, for the C6 counterexample. -/
def C6env : IngestEnv :=
  { user := some "u1", text := "hi", collectionIdRaw := "",
    imageOutcomes := [], audio := none, transcriptOutcome := none,
    hasApiKey := false, llm := LLMOutcome.fail "x", rnd := 0, newId := "id7",
    now := "t5", db := fun _ => DbResult.ok }

/-- Claim C6, counterexample: the live route's 200 body is `{ slug }` only —
it has no `id` and no `collection_id` field even though persistence
succeeded. -/
theorem C6_response_counterexample :
    (routeTsPost C6env).resp.status = 200
      ∧ (routeTsPost C6env).persisted.isSome = true
      ∧ (routeTsPost C6env).resp.body.map Prod.fst = ["slug"]
      ∧ ((routeTsPost C6env).resp.body.map Prod.fst).contains "id" = false
      ∧ ((routeTsPost C6env).resp.body.map Prod.fst).contains "collection_id" = false := by
  refine ⟨by decide, by decide, by decide, by decide, by decide⟩

/-- Claim C6 (amended): in the `part_008` variant, every 200 response body
carries `id` and `slug` as strings and a `collection_id` field (possibly
null), with `warning` optional and a string whenever present (the body also
carries the debugging field `received_collection_param`). -/
theorem C6_response_fields (env : P8Env)
    (h : (part8Post env).resp.status = 200) :
    (∃ i, jsonLookup (part8Post env).resp.body "id" = some (some i))
      ∧ (∃ sl, jsonLookup (part8Post env).resp.body "slug" = some (some sl))
      ∧ (∃ c, jsonLookup (part8Post env).resp.body "collection_id" = some c)
      ∧ (∀ w, jsonLookup (part8Post env).resp.body "warning" = some w →
          ∃ ws, w = some ws) := by
  unfold part8Post at h ⊢
  match hu : env.user with
  | none => rw [hu] at h; exact ((by decide : ¬(401 : Nat) = 200) h).elim
  | some uid =>
    rw [hu] at h
    match hup : uploadImagesStrict env.imageOutcomes with
    | Except.error m => rw [hup] at h; exact ((by decide : ¬(500 : Nat) = 200) h).elim
    | Except.ok urls =>
      rw [hup] at h
      match hau : audioStage env.audio with
      | Except.error m => rw [hau] at h; exact ((by decide : ¬(500 : Nat) = 200) h).elim
      | Except.ok au =>
        rw [hau] at h
        simp only at h
        simp only
        match hst : structureArtifact8
            ⟨env.text, urls,
              if env.audio.isSome then env.transcriptOutcome else none⟩ env.llm with
        | Except.error m => rw [hst] at h; exact ((by decide : ¬(500 : Nat) = 200) h).elim
        | Except.ok st =>
          rw [hst] at h
          match hdb : env.db
              (p8cols (resolveCollection env.colParam env.lookup).1.isSome) with
          | DbInsert.ok i s c =>
            rw [hdb] at h
            have hf := part8Finish_fields env.colParam
              (resolveCollection env.colParam env.lookup).1
              (resolveCollection env.colParam env.lookup).2.1 env.upd (i, s, c)
              [p8cols (resolveCollection env.colParam env.lookup).1.isSome]
            exact ⟨⟨i, hf.1⟩, ⟨s, hf.2.1⟩, hf.2.2.1, hf.2.2.2⟩
          | DbInsert.err code m =>
            rw [hdb] at h
            simp only at h
            simp only
            by_cases hcode : code = "42703"
            · rw [if_pos hcode] at h ⊢
              match hdb2 : env.db (p8cols false) with
              | DbInsert.ok i s c2 =>
                rw [hdb2] at h
                have hf := part8Finish_fields env.colParam
                  (resolveCollection env.colParam env.lookup).1
                  (resolveCollection env.colParam env.lookup).2.1 env.upd (i, s, none)
                  [p8cols (resolveCollection env.colParam env.lookup).1.isSome,
                    p8cols false]
                exact ⟨⟨i, hf.1⟩, ⟨s, hf.2.1⟩, hf.2.2.1, hf.2.2.2⟩
              | DbInsert.err c2 m2 =>
                rw [hdb2] at h
                exact ((by decide : ¬(500 : Nat) = 200) h).elim
            · rw [if_neg hcode] at h
              exact ((by decide : ¬(500 : Nat) = 200) h).elim

/-- Concrete environment for the `C6_response_fields` witness: a successful
`part_008` run with no collection reference (the returned `collection_id` is
null). -/
def C6env8 : P8Env :=
  { user := some "u1", text := "hi", colParam := none,
    lookup := fun _ => LookupOutcome.notFound, imageOutcomes := [],
    audio := none, transcriptOutcome := none,
    llm := LLMOutcome.json (Jx.obj
      [("title", Jx.str "T"), ("summary", Jx.str "S"), ("media", Jx.arr [])]),
    rnd := 0, now := "t6", db := fun _ => DbInsert.ok "id8" "t" none,
    upd := UpdateOutcome.threw }

/-- Witness for `C6_response_fields`. -/
theorem C6_response_fields_witness :
    (part8Post C6env8).resp.status = 200
      ∧ ((∃ i, jsonLookup (part8Post C6env8).resp.body "id" = some (some i))
          ∧ (∃ sl, jsonLookup (part8Post C6env8).resp.body "slug" = some (some sl))
          ∧ (∃ c, jsonLookup (part8Post C6env8).resp.body "collection_id" = some c)
          ∧ (∀ w, jsonLookup (part8Post C6env8).resp.body "warning" = some w →
              ∃ ws, w = some ws)) :=
  ⟨by decide, C6_response_fields C6env8 (by decide)⟩
